import Mathlib

/-!
Verification development for the fixed-pattern deflectometry orchestrator
`ProcessSofastFixed` (file `opencsp/app/sofast/lib/ProcessSofastFixed.py`).

The source file is shallowly embedded below:

* exact rational arithmetic (`ℚ`) replaces floating point for the
  facet-pointing geometry (`_calculate_facet_pointing`);
* collaborator classes that live outside the analysed file
  (`BlobIndex`, `process_optics_geometry`, `SlopeSolver`,
  `image_processing.calc_mask_raw`, `Vxyz.align_to`, ...) are taken as
  typed oracle parameters, modelled from the specification's contracts
  for them;
* Python exceptions are modelled by the `PyErr` type, and functions
  that can raise are modelled with `Except`/`Option PyErr` results;
* the orchestrator's mutable instance attributes become an explicit
  record `SofastState`, with `Option` distinguishing attributes that
  are still unset (a bare annotation in `__init__`) from assigned ones;
  reading an unset attribute models Python's `AttributeError`.
-/

namespace SofastFixed

/-- Kinds of Python exceptions that the modelled code paths can raise. -/
inductive PyErr where
  | valueError
  | attributeError
  | indexError
  | typeError
deriving DecidableEq

/-- The two assigned values of `self.optic_type` (`None` before any
`process_*` call is modelled by `Option OpticType`). -/
inductive OpticType where
  | single
  | multi
deriving DecidableEq

/-! ## Exact 3-vectors and 3x3 matrices

`Vxyz` data and scipy `Rotation` matrices are embedded as rational
3-vectors and 3x3 matrices. -/

/-- A 3-vector with exact rational coordinates (embeds `Vxyz` data). -/
structure Vec3 where
  x : ℚ
  y : ℚ
  z : ℚ
deriving DecidableEq

namespace Vec3

def add (a b : Vec3) : Vec3 := ⟨a.x + b.x, a.y + b.y, a.z + b.z⟩

def neg (a : Vec3) : Vec3 := ⟨-a.x, -a.y, -a.z⟩

def smul (k : ℚ) (a : Vec3) : Vec3 := ⟨k * a.x, k * a.y, k * a.z⟩

def zero : Vec3 := ⟨0, 0, 0⟩

end Vec3

instance : Add Vec3 := ⟨Vec3.add⟩

instance : Neg Vec3 := ⟨Vec3.neg⟩

instance : SMul ℚ Vec3 := ⟨Vec3.smul⟩

instance : Zero Vec3 := ⟨Vec3.zero⟩

/-- The nominal boresight direction `(0, 0, 1)` (`Vxyz((0, 0, 1))`). -/
def e3 : Vec3 := ⟨0, 0, 1⟩

/-- A 3x3 rational matrix (embeds a rotation in matrix form; row-major
field names `r<row><col>` with rows/cols `x y z`). -/
structure Mat3 where
  xx : ℚ
  xy : ℚ
  xz : ℚ
  yx : ℚ
  yy : ℚ
  yz : ℚ
  zx : ℚ
  zy : ℚ
  zz : ℚ
deriving DecidableEq

namespace Mat3

/-- Matrix-vector product (embeds `rot.apply(v)` / `v.rotate(rot)`:
a rotation acting on a vector multiplies its matrix onto the data). -/
def mulVec (M : Mat3) (v : Vec3) : Vec3 :=
  ⟨M.xx * v.x + M.xy * v.y + M.xz * v.z,
   M.yx * v.x + M.yy * v.y + M.yz * v.z,
   M.zx * v.x + M.zy * v.y + M.zz * v.z⟩

/-- Matrix product (composition of rotations, left factor applied last). -/
def mul (M N : Mat3) : Mat3 :=
  ⟨M.xx * N.xx + M.xy * N.yx + M.xz * N.zx,
   M.xx * N.xy + M.xy * N.yy + M.xz * N.zy,
   M.xx * N.xz + M.xy * N.yz + M.xz * N.zz,
   M.yx * N.xx + M.yy * N.yx + M.yz * N.zx,
   M.yx * N.xy + M.yy * N.yy + M.yz * N.zy,
   M.yx * N.xz + M.yy * N.yz + M.yz * N.zz,
   M.zx * N.xx + M.zy * N.yx + M.zz * N.zx,
   M.zx * N.xy + M.zy * N.yy + M.zz * N.zy,
   M.zx * N.xz + M.zy * N.yz + M.zz * N.zz⟩

/-- Identity matrix. -/
def one : Mat3 := ⟨1, 0, 0, 0, 1, 0, 0, 0, 1⟩

/-- Determinant (cofactor expansion along the first row). -/
def det (M : Mat3) : ℚ :=
  M.xx * (M.yy * M.zz - M.yz * M.zy)
    - M.xy * (M.yx * M.zz - M.yz * M.zx)
    + M.xz * (M.yx * M.zy - M.yy * M.zx)

/-- Matrix inverse by the adjugate formula (embeds `Rotation.inv()`;
entry `(i, j)` is the `(j, i)` cofactor divided by the determinant). -/
def inv (M : Mat3) : Mat3 :=
  let d := M.det
  ⟨(M.yy * M.zz - M.yz * M.zy) / d,
   (M.xz * M.zy - M.xy * M.zz) / d,
   (M.xy * M.yz - M.xz * M.yy) / d,
   (M.yz * M.zx - M.yx * M.zz) / d,
   (M.xx * M.zz - M.xz * M.zx) / d,
   (M.xz * M.yx - M.xx * M.yz) / d,
   (M.yx * M.zy - M.yy * M.zx) / d,
   (M.xy * M.zx - M.xx * M.zy) / d,
   (M.xx * M.yy - M.xy * M.yx) / d⟩

end Mat3

instance : Mul Mat3 := ⟨Mat3.mul⟩

instance : One Mat3 := ⟨Mat3.one⟩

/-! ## Rigid transforms (`TransformXYZ`)

Modelled from the spec: "Rigid Transform: rotation + translation
composing orientation and position between two coordinate frames;
composable (chainable), invertible."  A transform applies as
`x ↦ R x + V`, and composition `A * B` applies `B` first. -/

/-- A rigid transform: the rotation matrix `R` and translation `V` of
the collaborator class `TransformXYZ`. -/
structure TransformXYZ where
  R : Mat3
  V : Vec3
deriving DecidableEq

namespace TransformXYZ

/-- `TransformXYZ.from_R_V(R, V)`. -/
def from_R_V (R : Mat3) (V : Vec3) : TransformXYZ := ⟨R, V⟩

/-- `TransformXYZ.from_R(R)`: pure rotation. -/
def from_R (R : Mat3) : TransformXYZ := ⟨R, Vec3.zero⟩

/-- `TransformXYZ.from_V(V)`: pure translation. -/
def from_V (V : Vec3) : TransformXYZ := ⟨Mat3.one, V⟩

/-- Composition `A * B` (apply `B`, then `A`). -/
def comp (A B : TransformXYZ) : TransformXYZ :=
  ⟨A.R * B.R, A.R.mulVec B.V + A.V⟩

/-- `t.apply(v) = R v + V`. -/
def apply (T : TransformXYZ) (v : Vec3) : Vec3 := T.R.mulVec v + T.V

/-- The identity transform. -/
def id : TransformXYZ := ⟨Mat3.one, Vec3.zero⟩

end TransformXYZ

instance : Mul TransformXYZ := ⟨TransformXYZ.comp⟩

/-! ## `_calculate_facet_pointing` (Ensemble Aligner)

Embedding of `ProcessSofastFixed._calculate_facet_pointing`.  The
collaborator operation `Vxyz.align_to` (compute the rotation taking one
direction to another) and the `Uxyz` unit-normalization are outside the
analysed file; they are modelled from the spec as an oracle
`alignTo : Vec3 → Vec3 → Mat3` ("compute one global rotation that maps
the reference pointing to the ensemble's nominal boresight (0,0,1)")
and a per-vector positive normalization factor `nf : Vec3 → ℚ`
(the reciprocal norm; irrational in general, hence a parameter). -/

/-- The fields of the slope-solver result record (`SlopeSolverData`)
that `_calculate_facet_pointing` reads: the alignment transform, the
per-pixel facet-frame slopes `(sx, sy)`, and the facet-frame surface
points. -/
structure SlopeSolverData where
  trans_alignment : TransformXYZ
  slopes_facet_xy : List (ℚ × ℚ)
  v_surf_points_facet : List Vec3
deriving DecidableEq

/-- The fields of `DefinitionEnsemble` that the aligner reads: each
facet's rotation and location in the ensemble frame. -/
structure DefinitionEnsemble where
  r_facet_ensemble : List Mat3
  v_facet_locations : List Vec3
deriving DecidableEq

/-- One per-facet ensemble result record
(`cdc.CalculationFacetEnsemble`). -/
structure CalculationFacetEnsemble where
  trans_facet_ensemble : TransformXYZ
  slopes_ensemble_xy : List (ℚ × ℚ)
  v_surf_points_ensemble : List Vec3
  v_facet_pointing_ensemble : Vec3
deriving DecidableEq

/-- The `reference` argument: the string `'average'`, an `int`, or any
other Python value (`other`). -/
inductive RefArg where
  | average
  | intRef (i : ℤ)
  | other
deriving DecidableEq

/-- Default used for out-of-range list reads in the embedding (the
Python code would raise `IndexError`; the theorems below carry
length hypotheses that keep all reads in range). -/
def defaultSSD : SlopeSolverData := ⟨TransformXYZ.id, [], []⟩

/-- `trans_2` of the source: `TransformXYZ.from_V(-t.V) *
TransformXYZ.from_R(t.R.inv())`, the code's "inverse of the slope
solving transform". -/
def trans2Inv (t : TransformXYZ) : TransformXYZ :=
  TransformXYZ.from_V (-t.V) * TransformXYZ.from_R t.R.inv

/-- `trans_2 * trans_1` for facet `idx`: the facet-to-ensemble
transform before the global pointing correction. -/
def preTransOf (ensDef : DefinitionEnsemble) (data : List SlopeSolverData)
    (idx : ℕ) : TransformXYZ :=
  trans2Inv (data.getD idx defaultSSD).trans_alignment *
    TransformXYZ.from_R_V (ensDef.r_facet_ensemble.getD idx Mat3.one)
      (ensDef.v_facet_locations.getD idx Vec3.zero)

/-- Facet `idx`'s pointing vector in ensemble coordinates before the
correction: `Vxyz((0,0,1)).rotate(trans_facet_ensemble_list[idx].R)`. -/
def pointingOf (ensDef : DefinitionEnsemble) (data : List SlopeSolverData)
    (idx : ℕ) : Vec3 :=
  (preTransOf ensDef data idx).R.mulVec e3

/-- The columns of `v_pointing_matrix`. -/
def pointingList (ensDef : DefinitionEnsemble) (data : List SlopeSolverData)
    (numFacets : ℕ) : List Vec3 :=
  (List.range numFacets).map (pointingOf ensDef data)

/-- Sum of a list of vectors. -/
def sumVec : List Vec3 → Vec3
  | [] => Vec3.zero
  | v :: vs => v + sumVec vs

/-- `v_pointing_matrix.mean(1)`: columnwise mean. -/
def meanVec (n : ℕ) (vs : List Vec3) : Vec3 := ((n : ℚ)⁻¹) • sumVec vs

/-- Numpy column selection `m[:, i]` with Python negative-index
wrap-around; out of bounds raises `IndexError`. -/
def numpyColumn (cols : List Vec3) (i : ℤ) : Except PyErr Vec3 :=
  let j : ℤ := if i < 0 then (cols.length : ℤ) + i else i
  if 0 ≤ j ∧ j < (cols.length : ℤ) then
    .ok (cols.getD j.toNat Vec3.zero)
  else
    .error .indexError

/-- The final facet-to-ensemble transform: the single correction
`TransformXYZ.from_R(r_align_pointing)` left-composed onto facet
`idx`'s transform (`trans_align_pointing * t`). -/
def finalTransOf (alignTo : Vec3 → Vec3 → Mat3) (ensDef : DefinitionEnsemble)
    (data : List SlopeSolverData) (vref : Vec3) (idx : ℕ) : TransformXYZ :=
  TransformXYZ.from_R (alignTo vref e3) * preTransOf ensDef data idx

/-- One per-pixel global slope: build the slope-as-normal vector
`(-sx, -sy, 1)`, normalize it (`Uxyz`, modelled as scaling by
`nf`), rotate it by `R`, and reconvert to slope ratios
(`-rotated.xy / rotated.z`). -/
def slopeGlobal (nf : Vec3 → ℚ) (R : Mat3) (s : ℚ × ℚ) : ℚ × ℚ :=
  let n : Vec3 := ⟨-s.1, -s.2, 1⟩
  let u : Vec3 := nf n • n
  let g : Vec3 := R.mulVec u
  (-g.x / g.z, -g.y / g.z)

/-- The `cdc.CalculationFacetEnsemble` record built for facet `idx`
once the reference pointing `vref` is fixed. -/
def facetOut (alignTo : Vec3 → Vec3 → Mat3) (nf : Vec3 → ℚ)
    (ensDef : DefinitionEnsemble) (data : List SlopeSolverData)
    (vref : Vec3) (idx : ℕ) : CalculationFacetEnsemble :=
  let t := finalTransOf alignTo ensDef data vref idx
  { trans_facet_ensemble := t
    slopes_ensemble_xy := (data.getD idx defaultSSD).slopes_facet_xy.map (slopeGlobal nf t.R)
    v_surf_points_ensemble :=
      (data.getD idx defaultSSD).v_surf_points_facet.map t.apply
    v_facet_pointing_ensemble := t.R.mulVec e3 }

/-- The list `self.data_calculation_ensemble` built by the aligner. -/
def alignedOutput (alignTo : Vec3 → Vec3 → Mat3) (nf : Vec3 → ℚ)
    (ensDef : DefinitionEnsemble) (data : List SlopeSolverData)
    (numFacets : ℕ) (vref : Vec3) : List CalculationFacetEnsemble :=
  (List.range numFacets).map (facetOut alignTo nf ensDef data vref)

/-- Embedding of `_calculate_facet_pointing`.

`dataCalc` is the instance attribute `self.data_calculation_facet`:
`none` models the attribute never having been assigned (it is only a
bare annotation in `__init__`), in which case the guard
`if self.data_calculation_facet is None` itself raises
`AttributeError` — the `ValueError('Slopes must be solved first ...')`
branch is unreachable.  The order of the remaining checks follows the
source: reference-kind check, then the upper-bound index check
`reference >= self.num_facets` (negative indices pass and wrap via
numpy column indexing). -/
def calculateFacetPointing (alignTo : Vec3 → Vec3 → Mat3) (nf : Vec3 → ℚ)
    (ensDef : DefinitionEnsemble) (dataCalc : Option (List SlopeSolverData))
    (numFacets : ℕ) (reference : RefArg) :
    Except PyErr (List CalculationFacetEnsemble) :=
  match dataCalc with
  | none => .error .attributeError
  | some data =>
    match reference with
    | .other => .error .valueError
    | .intRef i =>
      if (numFacets : ℤ) ≤ i then .error .valueError
      else
        match numpyColumn (pointingList ensDef data numFacets) i with
        | .error e => .error e
        | .ok vref => .ok (alignedOutput alignTo nf ensDef data numFacets vref)
    | .average =>
      .ok (alignedOutput alignTo nf ensDef data numFacets
        (meanVec numFacets (pointingList ensDef data numFacets)))

/-! ## `_calculate_mask` (Mask Builder configuration logic)

The pixel-level routines `image_processing.calc_mask_raw` and
`image_processing.keep_largest_mask_area` are collaborators outside the
analysed file and are taken as oracle parameters; the embedding keeps
the part that lives in `ProcessSofastFixed`: building the (dark, bright)
image pair from the single measurement image, and the
`keep_largest_area` configuration-conflict logic.  The four numeric
mask parameters are fixed configuration folded into the `calcMaskRaw`
oracle.  `Px` indexes pixels; images are integer-valued pixel maps. -/

/-- The measurement record (`MeasurementSofastFixed`): the captured
image plus its remaining fields (`rest`), which the mask calculation
never reads. -/
structure MeasurementSofastFixed (Px MRest : Type) where
  image : Px → ℤ
  rest : MRest

/-- The image pair handed to `calc_mask_raw`:
`im_dark = self.measurement.image * 0` concatenated with the
measurement image. -/
def maskImagesPair {Px : Type} (image : Px → ℤ) : (Px → ℤ) × (Px → ℤ) :=
  (fun p => image p * 0, image)

/-- Result of `_calculate_mask`: the returned mask, the value of
`self.params.mask.keep_largest_area` after the call, and whether the
configuration-conflict warning was logged. -/
structure MaskCalcResult (Mk : Type) where
  mask : Mk
  keep_largest_area : Bool
  warned : Bool
deriving DecidableEq

/-- Embedding of `_calculate_mask`.  In multi-facet mode with
`keep_largest_area` requested, the conflict is resolved locally: a
warning is logged, the flag is turned off, and the raw mask is
returned unfiltered; no exception is raised on this path (the function
is total). -/
def calculate_mask {Px Mk : Type} (calcMaskRaw : (Px → ℤ) → (Px → ℤ) → Mk)
    (keepLargestMaskArea : Mk → Mk) (opticType : Option OpticType)
    (keep : Bool) (image : Px → ℤ) : MaskCalcResult Mk :=
  let pair := maskImagesPair image
  let mask := calcMaskRaw pair.1 pair.2
  if opticType = some OpticType.multi ∧ keep then
    { mask := mask, keep_largest_area := false, warned := true }
  else if keep then
    { mask := keepLargestMaskArea mask, keep_largest_area := keep, warned := false }
  else
    { mask := mask, keep_largest_area := keep, warned := false }

/-! ## The Orchestrator (`ProcessSofastFixed`) as a state machine

The orchestrator's instance attributes become the record `SofastState`;
each `process_*` call is a function from the pre-call state (plus the
call arguments) to the post-call state paired with the exception
raised, if any (`Option PyErr`).  When a collaborator raises midway,
the returned state is the state as mutated so far — Python exceptions
do not roll attribute assignments back.

Collaborator computations (blob detection/indexing, the geometry
solver, the slope solver, mirror construction) are deterministic
functions of their arguments; they are supplied as the oracle record
`Oracles`.  Constructor-fixed collaborators (camera, spatial
orientation, dot locations, numeric parameters) are folded into the
oracles. -/

/-- The opaque collaborator types of the orchestration model:
facet definitions `F`, surfaces `S`, ensemble definitions `E`, blob
indexes `B`, bundled geometry records `G` (the five
`data_geometry_* / data_image_processing_* / data_error` outputs),
slope-solver kwargs `K`, slope-solver objects `Slv`, slope-solver data
`D`, masks `Mk`, mirror objects `Mir`, per-facet ensemble records
`EnsD`, known-point pixel locations `P`, pixel indices `Px`, and the
non-image measurement payload `MRest`. -/
structure STypes where
  F : Type
  S : Type
  E : Type
  B : Type
  G : Type
  K : Type
  Slv : Type
  D : Type
  Mk : Type
  Mir : Type
  EnsD : Type
  P : Type
  Px : Type
  MRest : Type

/-- The collaborator functions used by `process_single_facet_optic` /
`process_multi_facet_optic`, modelled from the spec's contracts for
them (they live outside the analysed file). -/
structure Oracles (T : STypes) where
  copyFacet : T.F → T.F
  copyEnsemble : T.E → T.E
  findBlobs : (T.Px → ℤ) → List T.P → List (ℤ × ℤ) → Except PyErr T.B
  calcMaskRaw : (T.Px → ℤ) → (T.Px → ℤ) → T.Mk
  keepLargestMaskArea : T.Mk → T.Mk
  procSingleGeom : T.F → T.Mk → MeasurementSofastFixed T.Px T.MRest → T.B →
    T.S → Except PyErr (T.G × T.K)
  procMultiGeom : List T.F → T.E → T.Mk → MeasurementSofastFixed T.Px T.MRest →
    T.B → List T.S → Except PyErr (T.G × List T.K)
  solveSlopes : T.K → Except PyErr (T.Slv × T.D)
  facetPointing : T.E → List T.D → ℕ → List T.EnsD × Option PyErr
  mkMirror : T.D → T.F → T.Mir

/-- The orchestrator's mutable instance attributes.  `none` models an
attribute that is unset (bare annotation in `__init__`) or was
explicitly initialized to `None` (`num_facets`, `optic_type`);
`keep_largest_area` is the mutable `self.params.mask.keep_largest_area`
flag. -/
structure SofastState (T : STypes) where
  measurement : Option (MeasurementSofastFixed T.Px T.MRest)
  optic_type : Option OpticType
  num_facets : Option ℕ
  data_facet_def : Option (List T.F)
  data_ensemble_def : Option T.E
  data_surfaces : Option (List T.S)
  data_geometry : Option T.G
  data_calculation_facet : Option (List T.D)
  data_calculation_ensemble : Option (List T.EnsD)
  slope_solver : Option (List T.Slv)
  blob_index : Option T.B
  keep_largest_area : Bool

/-- `load_measurement_data`. -/
def load_measurement_data {T : STypes} (m : MeasurementSofastFixed T.Px T.MRest)
    (st : SofastState T) : SofastState T :=
  { st with measurement := some m }

/-- The length-consistency guard of `process_multi_facet_optic` as
written: the Python chained comparison
`len(data_facet_def) != len(surfaces) != len(pts_known) != len(xys_known)`
means `(lf ≠ ls) and (ls ≠ lp) and (lp ≠ lx)`. -/
def multiLengthMismatchRaises (lf ls lp lx : ℕ) : Bool :=
  (lf ≠ ls) && (ls ≠ lp) && (lp ≠ lx)

/-- The intended guard: all four input lists have the same length. -/
def allLengthsEqual (lf ls lp lx : ℕ) : Bool :=
  (lf = ls) && (ls = lp) && (lp = lx)

/-- The multi-facet slope loop (`for kwargs in kwargs_list`): both
result lists start empty and are appended to per facet; on a raise the
lists built so far remain assigned to the instance. -/
def runSlopeLoop {K Slv D : Type} (solve : K → Except PyErr (Slv × D)) :
    List K → List Slv × List D × Option PyErr
  | [] => ([], [], none)
  | k :: ks =>
    match solve k with
    | .error e => ([], [], some e)
    | .ok (sv, d) =>
      match runSlopeLoop solve ks with
      | (svs, ds, r) => (sv :: svs, d :: ds, r)

/-- Embedding of `process_single_facet_optic`.  Returns the post-call
state and the exception raised (if any); the state reflects exactly
the attribute assignments executed before the raise. -/
def processSingle {T : STypes} (O : Oracles T) (data_facet_def : T.F)
    (surface : T.S) (pt_known : List T.P) (xy_known : ℤ × ℤ)
    (st : SofastState T) : SofastState T × Option PyErr :=
  if pt_known.length ≠ 1 then (st, some .valueError)
  else
    let st1 := { st with
                 optic_type := some OpticType.single,
                 num_facets := some 1,
                 data_facet_def := some [O.copyFacet data_facet_def],
                 data_surfaces := some [surface] }
    match st1.measurement with
    | none => (st1, some .attributeError)
    | some m =>
      match O.findBlobs m.image pt_known [xy_known] with
      | .error e => (st1, some e)
      | .ok b =>
        let st2 := { st1 with blob_index := some b }
        let mres := calculate_mask O.calcMaskRaw O.keepLargestMaskArea
          st2.optic_type st2.keep_largest_area m.image
        let st3 := { st2 with keep_largest_area := mres.keep_largest_area }
        match O.procSingleGeom (O.copyFacet data_facet_def) mres.mask m b surface with
        | .error e => (st3, some e)
        | .ok (g, kw) =>
          let st4 := { st3 with data_geometry := some g }
          match O.solveSlopes kw with
          | .error e => (st4, some e)
          | .ok (sv, d) =>
            ({ st4 with
               slope_solver := some [sv],
               data_calculation_facet := some [d] }, none)

/-- Embedding of `process_multi_facet_optic` (the trailing
`_calculate_facet_pointing()` call is the `facetPointing` oracle; its
result list is assigned even when it raises midway, mirroring the
`data_calculation_ensemble = []`-then-append structure). -/
def processMulti {T : STypes} (O : Oracles T) (data_facet_def : List T.F)
    (surfaces : List T.S) (data_ensemble_def : T.E) (pts_known : List T.P)
    (xys_known : List (ℤ × ℤ)) (st : SofastState T) :
    SofastState T × Option PyErr :=
  if multiLengthMismatchRaises data_facet_def.length surfaces.length
      pts_known.length xys_known.length then (st, some .valueError)
  else
    let st1 := { st with
                 optic_type := some OpticType.multi,
                 num_facets := some data_facet_def.length,
                 data_facet_def := some (data_facet_def.map O.copyFacet),
                 data_ensemble_def := some (O.copyEnsemble data_ensemble_def),
                 data_surfaces := some surfaces }
    match st1.measurement with
    | none => (st1, some .attributeError)
    | some m =>
      match O.findBlobs m.image pts_known xys_known with
      | .error e => (st1, some e)
      | .ok b =>
        let st2 := { st1 with blob_index := some b }
        let mres := calculate_mask O.calcMaskRaw O.keepLargestMaskArea
          st2.optic_type st2.keep_largest_area m.image
        let st3 := { st2 with keep_largest_area := mres.keep_largest_area }
        match O.procMultiGeom (data_facet_def.map O.copyFacet)
            (O.copyEnsemble data_ensemble_def) mres.mask m b surfaces with
        | .error e => (st3, some e)
        | .ok (g, kws) =>
          let st4 := { st3 with data_geometry := some g }
          match runSlopeLoop O.solveSlopes kws with
          | (svs, ds, r) =>
            let st5 := { st4 with
                         slope_solver := some svs,
                         data_calculation_facet := some ds }
            match r with
            | some e => (st5, some e)
            | none =>
              match O.facetPointing (O.copyEnsemble data_ensemble_def) ds
                  data_facet_def.length with
              | (ens, pe) =>
                ({ st5 with data_calculation_ensemble := some ens }, pe)

/-- Result of `get_optic`: a single `Facet`, a `FacetEnsemble` (facets
plus the per-facet transforms taken from the ensemble records), or a
raised exception. -/
inductive OpticOut (T : STypes) where
  | facetOut (m : T.Mir)
  | ensembleOut (ms : List T.Mir) (ts : List T.EnsD)
  | errorOut (e : PyErr)

/-- Embedding of `get_optic`: iterate facets `0 .. num_facets - 1`,
building one mirror per facet from that facet's slope data and facet
definition; in multi mode also collect the per-facet ensemble
transforms and return an ensemble, otherwise return `facets[0]`.
Unset attributes raise `AttributeError`; `range(None)` on the
`None`-initialized `num_facets` raises `TypeError`; out-of-range index
accesses raise `IndexError`. -/
def getOptic {T : STypes} (O : Oracles T) (st : SofastState T) : OpticOut T :=
  match st.num_facets with
  | none => .errorOut .typeError
  | some n =>
    match st.data_calculation_facet, st.data_facet_def with
    | none, _ => .errorOut .attributeError
    | some _, none => .errorOut .attributeError
    | some ds, some fs =>
      if n ≤ ds.length ∧ n ≤ fs.length then
        let ms := ((ds.zip fs).take n).map (fun p => O.mkMirror p.1 p.2)
        if st.optic_type = some OpticType.multi then
          match st.data_calculation_ensemble with
          | none => .errorOut .attributeError
          | some es =>
            if n ≤ es.length then .ensembleOut ms (es.take n)
            else .errorOut .indexError
        else
          match ms with
          | [] => .errorOut .indexError
          | m :: _ => .facetOut m
      else .errorOut .indexError

/-! ## Reference/copy discipline of `process_*` (heap model)

A small object-store model of the aliasing behaviour of
`process_single_facet_optic` / `process_multi_facet_optic`: facet and
ensemble definitions are stored as `.copy()` results (fresh cells
holding equal values), surfaces are stored by reference, and the only
in-place mutation the pipeline performs on caller-visible objects is
the slope solver's refinement of the surface objects (spec: "the
Surface Model's coefficients ... are refined in place").  Facet and
ensemble definitions are "read-only reference" data per the spec; the
code only reads them after copying.  Addresses of different Python
types can never alias, so facet definitions, the ensemble definition
and surfaces live in three separate stores. -/

/-- A store of objects of type `V`: cell contents plus the next fresh
address. -/
structure Store (V : Type) where
  mem : ℕ → V
  next : ℕ

namespace Store

/-- Read the object at address `a`. -/
def read {V : Type} (st : Store V) (a : ℕ) : V := st.mem a

/-- Allocate a new object (`.copy()` allocates), returning its fresh
address. -/
def alloc {V : Type} (st : Store V) (v : V) : ℕ × Store V :=
  (st.next, ⟨fun n => if n = st.next then v else st.mem n, st.next + 1⟩)

/-- In-place mutation of the object at address `a`. -/
def write {V : Type} (st : Store V) (a : ℕ) (v : V) : Store V :=
  ⟨fun n => if n = a then v else st.mem n, st.next⟩

/-- Allocate copies of the objects at the given addresses, in order
(`[d.copy() for d in data_facet_def]`). -/
def allocCopies {V : Type} (st : Store V) : List ℕ → List ℕ × Store V
  | [] => ([], st)
  | a :: as' =>
    match st.alloc (st.read a) with
    | (c, st1) =>
      match st1.allocCopies as' with
      | (cs, st2) => (c :: cs, st2)

end Store

/-- The heaps of the three caller-visible object types. -/
structure HeapEnv (F E S : Type) where
  facets : Store F
  ens : Store E
  surfs : Store S

/-- The orchestrator attributes that hold object references:
`data_facet_def` (addresses of the stored copies),
`data_ensemble_def`, and `data_surfaces` (the caller's surface
addresses, stored by reference). -/
structure StoredRefs where
  data_facet_def : List ℕ
  data_ensemble_def : Option ℕ
  data_surfaces : List ℕ
deriving DecidableEq

/-- Heap-level behaviour of `process_single_facet_optic`:
`self.data_facet_def = [data_facet_def.copy()]`,
`self.data_surfaces = [surface]`, and the slope solve refines the
caller's surface object in place (`refine`). -/
def processSingleHeap {F E S : Type} (refine : S → S) (fdAddr : ℕ)
    (surfAddr : ℕ) (h : HeapEnv F E S) : StoredRefs × HeapEnv F E S :=
  match h.facets.alloc (h.facets.read fdAddr) with
  | (c, facets1) =>
    ({ data_facet_def := [c], data_ensemble_def := none,
       data_surfaces := [surfAddr] },
     { facets := facets1, ens := h.ens,
       surfs := h.surfs.write surfAddr (refine (h.surfs.read surfAddr)) })

/-- Heap-level behaviour of `process_multi_facet_optic`:
`self.data_facet_def = [d.copy() for d in data_facet_def]`,
`self.data_ensemble_def = data_ensemble_def.copy()`,
`self.data_surfaces = surfaces`, and the slope loop refines each
caller surface object in place. -/
def processMultiHeap {F E S : Type} (refine : S → S) (fdAddrs : List ℕ)
    (ensAddr : ℕ) (surfAddrs : List ℕ) (h : HeapEnv F E S) :
    StoredRefs × HeapEnv F E S :=
  match h.facets.allocCopies fdAddrs with
  | (cs, facets1) =>
    match h.ens.alloc (h.ens.read ensAddr) with
    | (ec, ens1) =>
      ({ data_facet_def := cs, data_ensemble_def := some ec,
         data_surfaces := surfAddrs },
       { facets := facets1, ens := ens1,
         surfs := surfAddrs.foldl
           (fun s a => s.write a (refine (s.read a))) h.surfs })

/-! ## Auxiliary definitions for the theorems -/

/-- Default used for out-of-range reads of the output list (never hit
under the theorems' length hypotheses). -/
def defaultCFE : CalculationFacetEnsemble :=
  ⟨TransformXYZ.id, [], [], Vec3.zero⟩

/-- The claimed form of the global-slope computation: take the raw
(unnormalized) slope-as-normal direction `(-sx, -sy, 1)`, rotate it by
`R`, and read the slopes back as `-(R n).xy / (R n).z`.  Stated from
the spec sentence; the theorems compare it with the code's
`slopeGlobal` (which goes through the unit normalization). -/
def slopeViaNormal (R : Mat3) (s : ℚ × ℚ) : ℚ × ℚ :=
  let g : Vec3 := R.mulVec ⟨-s.1, -s.2, 1⟩
  (-g.x / g.z, -g.y / g.z)

/-- The per-facet result attributes of the orchestrator named by the
stale-data property: facet definitions, surfaces, blob index, geometry
records, slope solvers, and slope data. -/
def facetResults {T : STypes} (st : SofastState T) :
    Option (List T.F) × Option (List T.S) × Option T.B × Option T.G ×
      Option (List T.Slv) × Option (List T.D) :=
  (st.data_facet_def, st.data_surfaces, st.blob_index, st.data_geometry,
   st.slope_solver, st.data_calculation_facet)

/-! Concrete instantiations used by witnesses and counterexamples: all
collaborator types are `Unit`, so every oracle is trivially
deterministic and every run is fully computable. -/

/-- Trivial collaborator types. -/
def TU : STypes :=
  ⟨Unit, Unit, Unit, Unit, Unit, Unit, Unit, Unit, Unit, Unit, Unit, Unit,
   Unit, Unit⟩

/-- A concrete measurement. -/
def mU : MeasurementSofastFixed TU.Px TU.MRest := ⟨fun _ => 0, ()⟩

/-- Oracles in which every collaborator step succeeds. -/
def OU : Oracles TU where
  copyFacet := fun _ => ()
  copyEnsemble := fun _ => ()
  findBlobs := fun _ _ _ => .ok ()
  calcMaskRaw := fun _ _ => ()
  keepLargestMaskArea := fun _ => ()
  procSingleGeom := fun _ _ _ _ _ => .ok ((), ())
  procMultiGeom := fun _ _ _ _ _ _ => .ok ((), [(), ()])
  solveSlopes := fun _ => .ok ((), ())
  facetPointing := fun _ _ _ => ([], none)
  mkMirror := fun _ _ => ()

/-- Oracles in which geometry processing raises a degeneracy error
(e.g. an empty mask region), everything else succeeding. -/
def OgeomFailU : Oracles TU :=
  { OU with procSingleGeom := fun _ _ _ _ _ => .error .valueError }

/-- A freshly constructed orchestrator state (after `__init__` and
`load_measurement_data`): both `None`-initialized and never-assigned
attributes are `none`. -/
def stU : SofastState TU where
  measurement := some mU
  optic_type := none
  num_facets := none
  data_facet_def := none
  data_ensemble_def := none
  data_surfaces := none
  data_geometry := none
  data_calculation_facet := none
  data_calculation_ensemble := none
  slope_solver := none
  blob_index := none
  keep_largest_area := false

/-- A concrete raw-mask oracle for the mask witnesses. -/
def crW : (Unit → ℤ) → (Unit → ℤ) → ℤ × ℤ := fun d b => (d (), b ())

/-- A concrete largest-area filter for the mask witnesses. -/
def klW : ℤ × ℤ → ℤ × ℤ := fun x => (x.1 + 1, x.2)

/-- A concrete `align_to` oracle (identity rotation). -/
def alignToW : Vec3 → Vec3 → Mat3 := fun _ _ => Mat3.one

/-- A concrete unit normalization factor. -/
def nfW : Vec3 → ℚ := fun _ => 1

/-- A concrete positive non-unit normalization factor. -/
def nfW2 : Vec3 → ℚ := fun _ => 2

/-- A concrete one-facet ensemble definition. -/
def ensDefW : DefinitionEnsemble := ⟨[Mat3.one], [Vec3.zero]⟩

/-- A concrete slope-solver result with one slope pair and one surface
point. -/
def ssdW : SlopeSolverData := ⟨TransformXYZ.id, [(1, 2)], [⟨1, 0, 0⟩]⟩

/-- Concrete heaps for the copy-semantics witness: two facet
definitions, one ensemble definition, one surface. -/
def hpW : HeapEnv ℕ ℕ ℕ :=
  ⟨⟨fun n => n + 100, 2⟩, ⟨fun n => n + 200, 1⟩, ⟨fun n => n + 300, 1⟩⟩

/-! ## Helper lemmas -/

theorem Vec3.ext3 (a b : Vec3) (hx : a.x = b.x) (hy : a.y = b.y) (hz : a.z = b.z) :
    a = b := by
  cases a
  cases b
  simp only [Vec3.mk.injEq]
  exact ⟨hx, hy, hz⟩

theorem Mat3.mul_mulVec (M N : Mat3) (v : Vec3) :
    (M * N).mulVec v = M.mulVec (N.mulVec v) := by
  show (M.mul N).mulVec v = M.mulVec (N.mulVec v)
  simp only [Mat3.mul, Mat3.mulVec]
  exact Vec3.ext3 _ _ (by ring) (by ring) (by ring)

theorem Mat3.mulVec_smul (M : Mat3) (k : ℚ) (v : Vec3) :
    M.mulVec (k • v) = k • M.mulVec v := by
  show M.mulVec (Vec3.smul k v) = Vec3.smul k (M.mulVec v)
  simp only [Mat3.mulVec, Vec3.smul]
  exact Vec3.ext3 _ _ (by ring) (by ring) (by ring)

theorem TransformXYZ.comp_R (A B : TransformXYZ) : (A * B).R = A.R * B.R := rfl

theorem getD_range_map {α : Type} (f : ℕ → α) (N j : ℕ) (d : α) (hj : j < N) :
    ((List.range N).map f).getD j d = f j := by
  rw [List.getD_eq_getElem?_getD, List.getElem?_map, List.getElem?_range hj]
  rfl

theorem pointingList_length (ensDef : DefinitionEnsemble)
    (data : List SlopeSolverData) (N : ℕ) :
    (pointingList ensDef data N).length = N := by
  simp [pointingList]

theorem calculate_mask_keep_single {Px Mk : Type}
    (cr : (Px → ℤ) → (Px → ℤ) → Mk) (kl : Mk → Mk) (k : Bool) (img : Px → ℤ) :
    (calculate_mask cr kl (some OpticType.single) k img).keep_largest_area = k := by
  cases k <;> rfl

theorem calculate_mask_keep_multi {Px Mk : Type}
    (cr : (Px → ℤ) → (Px → ℤ) → Mk) (kl : Mk → Mk) (k : Bool) (img : Px → ℤ) :
    (calculate_mask cr kl (some OpticType.multi) k img).keep_largest_area = false := by
  cases k <;> rfl

theorem processSingle_opticType {T : STypes} (O : Oracles T) (fd : T.F) (sf : T.S)
    (pts : List T.P) (xy : ℤ × ℤ) (st : SofastState T) (h : pts.length = 1) :
    ((processSingle O fd sf pts xy st).1).optic_type = some OpticType.single := by
  unfold processSingle
  rw [if_neg (by simp [h])]
  dsimp only
  split
  · rfl
  · split
    · rfl
    · split
      · rfl
      · split
        · rfl
        · rfl

theorem processSingle_keep {T : STypes} (O : Oracles T) (fd : T.F) (sf : T.S)
    (pts : List T.P) (xy : ℤ × ℤ) (st : SofastState T) :
    ((processSingle O fd sf pts xy st).1).keep_largest_area =
      st.keep_largest_area := by
  unfold processSingle
  by_cases h : pts.length ≠ 1
  · rw [if_pos h]
  · rw [if_neg h]
    dsimp only
    split
    · rfl
    · split
      · rfl
      · split
        · exact calculate_mask_keep_single _ _ _ _
        · split
          · exact calculate_mask_keep_single _ _ _ _
          · exact calculate_mask_keep_single _ _ _ _

theorem Vec3.smul_def (k : ℚ) (v : Vec3) :
    k • v = ⟨k * v.x, k * v.y, k * v.z⟩ := rfl

theorem Mat3.one_mulVec (v : Vec3) : Mat3.one.mulVec v = v := by
  simp only [Mat3.mulVec, Mat3.one]
  cases v
  norm_num

theorem Mat3.mul_def (M N : Mat3) : M * N = Mat3.mul M N := rfl

theorem TransformXYZ.mul_eq_comp (A B : TransformXYZ) :
    A * B = TransformXYZ.comp A B := rfl

theorem Mat3.inv_one : Mat3.one.inv = Mat3.one := by
  simp only [Mat3.inv, Mat3.det, Mat3.one, Mat3.mk.injEq]
  norm_num

theorem Mat3.mul_one (M : Mat3) : M * Mat3.one = M := by
  cases M
  simp only [Mat3.mul_def, Mat3.mul, Mat3.one, Mat3.mk.injEq]
  norm_num

theorem Mat3.one_mul (M : Mat3) : Mat3.one * M = M := by
  cases M
  simp only [Mat3.mul_def, Mat3.mul, Mat3.one, Mat3.mk.injEq]
  norm_num

theorem pointingOf_W : pointingOf ensDefW [defaultSSD] 0 = e3 := by
  show ((trans2Inv TransformXYZ.id *
    TransformXYZ.from_R_V Mat3.one Vec3.zero).R).mulVec e3 = e3
  show ((Mat3.one * Mat3.one.inv) * Mat3.one).mulVec e3 = e3
  rw [Mat3.inv_one, Mat3.mul_one, Mat3.mul_one, Mat3.one_mulVec]

theorem calcFP_intRef_nat (alignTo : Vec3 → Vec3 → Mat3) (nf : Vec3 → ℚ)
    (ensDef : DefinitionEnsemble) (data : List SlopeSolverData) (N : ℕ)
    (i : ℕ) (hi : i < N) :
    calculateFacetPointing alignTo nf ensDef (some data) N
      (RefArg.intRef i) =
      .ok (alignedOutput alignTo nf ensDef data N (pointingOf ensDef data i)) := by
  unfold calculateFacetPointing
  dsimp only
  rw [if_neg (show ¬ (N : ℤ) ≤ (i : ℤ) by omega)]
  unfold numpyColumn
  dsimp only
  rw [pointingList_length, if_neg (show ¬ (i : ℤ) < 0 by omega),
    if_pos (show (0 : ℤ) ≤ (i : ℤ) ∧ (i : ℤ) < (N : ℤ) by omega)]
  rw [Int.toNat_natCast]
  unfold pointingList
  rw [getD_range_map _ _ _ _ hi]

theorem calcFP_ok_shape (alignTo : Vec3 → Vec3 → Mat3) (nf : Vec3 → ℚ)
    (ensDef : DefinitionEnsemble) (data : List SlopeSolverData) (N : ℕ)
    (r : RefArg) (out : List CalculationFacetEnsemble)
    (h : calculateFacetPointing alignTo nf ensDef (some data) N r = .ok out) :
    ∃ vref, out = alignedOutput alignTo nf ensDef data N vref := by
  unfold calculateFacetPointing at h
  cases r with
  | average => exact ⟨_, (Except.ok.inj h).symm⟩
  | other => exact absurd h (by simp)
  | intRef i =>
    dsimp only at h
    by_cases hle : (N : ℤ) ≤ i
    · rw [if_pos hle] at h
      exact absurd h (by simp)
    · rw [if_neg hle] at h
      cases hc : numpyColumn (pointingList ensDef data N) i with
      | error e =>
        rw [hc] at h
        exact absurd h (by simp)
      | ok v =>
        rw [hc] at h
        exact ⟨v, (Except.ok.inj h).symm⟩

theorem slopeGlobal_eq_viaNormal (nf : Vec3 → ℚ) (R : Mat3) (s : ℚ × ℚ)
    (h : nf ⟨-s.1, -s.2, 1⟩ ≠ 0) :
    slopeGlobal nf R s = slopeViaNormal R s := by
  unfold slopeGlobal slopeViaNormal
  dsimp only
  rw [Mat3.mulVec_smul, Vec3.smul_def]
  dsimp only
  rw [neg_div, neg_div, neg_div, neg_div,
    mul_div_mul_left _ _ h, mul_div_mul_left _ _ h]

theorem processSingle_success_fields {T : STypes} (O : Oracles T) (fd : T.F)
    (sf : T.S) (pts : List T.P) (xy : ℤ × ℤ) (s : SofastState T)
    (t : SofastState T) (m : MeasurementSofastFixed T.Px T.MRest)
    (hm : s.measurement = some m)
    (h : processSingle O fd sf pts xy s = (t, none)) :
    ∃ b g kw sv d,
      O.findBlobs m.image pts [xy] = .ok b ∧
      O.procSingleGeom (O.copyFacet fd)
        (calculate_mask O.calcMaskRaw O.keepLargestMaskArea
          (some OpticType.single) s.keep_largest_area m.image).mask m b sf =
        .ok (g, kw) ∧
      O.solveSlopes kw = .ok (sv, d) ∧
      t.data_facet_def = some [O.copyFacet fd] ∧
      t.data_surfaces = some [sf] ∧
      t.blob_index = some b ∧
      t.data_geometry = some g ∧
      t.slope_solver = some [sv] ∧
      t.data_calculation_facet = some [d] ∧
      t.optic_type = some OpticType.single ∧
      t.num_facets = some 1 := by
  unfold processSingle at h
  by_cases hlen : pts.length ≠ 1
  · rw [if_pos hlen] at h
    exact absurd (congrArg Prod.snd h) (by simp)
  · rw [if_neg hlen] at h
    dsimp only at h
    rw [hm] at h
    dsimp only at h
    cases hb : O.findBlobs m.image pts [xy] with
    | error e =>
      rw [hb] at h
      exact absurd (congrArg Prod.snd h) (by simp)
    | ok b =>
      rw [hb] at h
      dsimp only at h
      cases hg : O.procSingleGeom (O.copyFacet fd)
          (calculate_mask O.calcMaskRaw O.keepLargestMaskArea
            (some OpticType.single) s.keep_largest_area m.image).mask m b sf with
      | error e =>
        rw [hg] at h
        exact absurd (congrArg Prod.snd h) (by simp)
      | ok p =>
        obtain ⟨g, kw⟩ := p
        rw [hg] at h
        dsimp only at h
        cases hs : O.solveSlopes kw with
        | error e =>
          rw [hs] at h
          exact absurd (congrArg Prod.snd h) (by simp)
        | ok q =>
          obtain ⟨sv, d⟩ := q
          rw [hs] at h
          dsimp only at h
          have ht := congrArg Prod.fst h
          dsimp only at ht
          exact ⟨b, g, kw, sv, d, rfl, hg, hs, by rw [← ht], by rw [← ht],
            by rw [← ht], by rw [← ht], by rw [← ht], by rw [← ht],
            by rw [← ht], by rw [← ht]⟩

theorem getOptic_of_single_fields {T : STypes} (O : Oracles T)
    (t : SofastState T) (d : T.D) (f : T.F)
    (h1 : t.num_facets = some 1) (h2 : t.data_calculation_facet = some [d])
    (h3 : t.data_facet_def = some [f])
    (h4 : t.optic_type = some OpticType.single) :
    getOptic O t = .facetOut (O.mkMirror d f) := by
  unfold getOptic
  rw [h1, h2, h3, h4]
  rfl

theorem Store.alloc_read_lt {V : Type} (st : Store V) (v : V) (a : ℕ)
    (h : a < st.next) : ((st.alloc v).2).read a = st.read a := by
  simp [Store.alloc, Store.read, Nat.ne_of_lt h]

theorem Store.allocCopies_next_le {V : Type} (l : List ℕ) (st : Store V) :
    st.next ≤ ((st.allocCopies l).2).next := by
  induction l generalizing st with
  | nil => exact le_refl _
  | cons a as ih =>
    simp only [Store.allocCopies]
    have h := ih ((st.alloc (st.read a)).2)
    exact le_trans (Nat.le_succ _) h

theorem Store.allocCopies_read_lt {V : Type} (l : List ℕ) (st : Store V)
    (a : ℕ) (h : a < st.next) :
    ((st.allocCopies l).2).read a = st.read a := by
  induction l generalizing st with
  | nil => rfl
  | cons x xs ih =>
    simp only [Store.allocCopies]
    rw [ih ((st.alloc (st.read x)).2) (lt_trans h (Nat.lt_succ_self _))]
    exact Store.alloc_read_lt st (st.read x) a h

theorem Store.allocCopies_fresh {V : Type} (l : List ℕ) (st : Store V)
    (c : ℕ) (hc : c ∈ (st.allocCopies l).1) : st.next ≤ c := by
  induction l generalizing st with
  | nil => cases hc
  | cons x xs ih =>
    simp only [Store.allocCopies] at hc
    rcases List.mem_cons.mp hc with h | h
    · exact le_of_eq h.symm
    · exact le_trans (Nat.le_succ _) (ih ((st.alloc (st.read x)).2) h)

theorem Store.allocCopies_values {V : Type} (l : List ℕ) (st : Store V)
    (hl : ∀ a ∈ l, a < st.next) :
    ((st.allocCopies l).1).map ((st.allocCopies l).2).read = l.map st.read := by
  induction l generalizing st with
  | nil => rfl
  | cons x xs ih =>
    simp only [Store.allocCopies, List.map_cons, List.map]
    refine congrArg₂ List.cons ?_ ?_
    · rw [Store.allocCopies_read_lt xs ((st.alloc (st.read x)).2) st.next
        (Nat.lt_succ_self _)]
      simp [Store.alloc, Store.read]
    · show List.map ((st.alloc (st.read x)).2.allocCopies xs).2.read
          ((st.alloc (st.read x)).2.allocCopies xs).1 = List.map st.read xs
      rw [ih ((st.alloc (st.read x)).2)
        (fun a ha => lt_trans (hl a (List.mem_cons_of_mem x ha))
          (Nat.lt_succ_self _))]
      refine List.map_congr_left ?_
      intro a ha
      exact Store.alloc_read_lt st (st.read x) a
        (hl a (List.mem_cons_of_mem x ha))

/-! ## Claims -/

/-- C1: the claim says that whenever the four input lists of
`process_multi_facet_optic` do not all have the same length, the call
raises `ValueError` and assigns no state.  The guard as written is the
Python chained comparison `len(a) != len(b) != len(c) != len(d)`, which
is `(la ≠ lb) and (lb ≠ lc) and (lc ≠ ld)`: with lengths `(2, 2, 3, 3)`
the lists are not all of equal length, yet the guard does not fire, the
call proceeds without raising, and the calculation state is assigned
(`optic_type` becomes `'multi'`).  This contradicts the guard's own
error message and the spec's "must all agree in count", so it is a bug
in the code. -/
theorem claim_C1_multi_length_check_misses_mismatch :
    multiLengthMismatchRaises 2 2 3 3 = false ∧
    allLengthsEqual 2 2 3 3 = false ∧
    (processMulti OU [(), ()] [(), ()] () [(), (), ()]
      [(0, 0), (0, 0), (0, 0)] stU).2 = none ∧
    (processMulti OU [(), ()] [(), ()] () [(), (), ()]
      [(0, 0), (0, 0), (0, 0)] stU).1.optic_type = some OpticType.multi := by
  refine ⟨rfl, rfl, rfl, rfl⟩

/-- C2 counterexample: an aborted `process_single_facet_optic` call
(geometry processing raises a degeneracy `ValueError`) does not leave
every instance attribute unchanged — `optic_type` has already been
assigned `'single'` when the error propagates, so the claim as stated
is false. -/
theorem claim_C2_counterexample :
    (processSingle OgeomFailU () () [()] (0, 0) stU).2 = some PyErr.valueError ∧
    (processSingle OgeomFailU () () [()] (0, 0) stU).1.optic_type ≠
      stU.optic_type := by
  exact ⟨rfl, by decide⟩

/-- C6: in multi-facet mode with `keep_largest_area` enabled, the
conflict is resolved non-fatally: the warning is logged, the flag is
turned off, and the returned mask is the raw mask (no
largest-connected-region filter), with no exception on this path (the
embedded `_calculate_mask` is total); in single-facet mode with the
flag enabled the filter `keep_largest_mask_area` is applied. -/
theorem claim_C6_keep_largest_area_conflict {Px Mk : Type}
    (cr : (Px → ℤ) → (Px → ℤ) → Mk) (kl : Mk → Mk) (img : Px → ℤ) :
    calculate_mask cr kl (some OpticType.multi) true img =
      { mask := cr (fun p => img p * 0) img, keep_largest_area := false,
        warned := true } ∧
    calculate_mask cr kl (some OpticType.single) true img =
      { mask := kl (cr (fun p => img p * 0) img), keep_largest_area := true,
        warned := false } := by
  exact ⟨rfl, rfl⟩

/-- C10: the mask computation always builds its bright/dark pair as
(measurement image times zero, measurement image); the dark channel is
identically zero, and the resulting mask depends only on the
measurement's image (and the configuration folded into the oracles):
two measurements with equal images but different remaining fields get
identical masks. -/
theorem claim_C10_mask_dark_channel_is_zero {Px Mk MRest : Type}
    (cr : (Px → ℤ) → (Px → ℤ) → Mk) (kl : Mk → Mk) (ot : Option OpticType)
    (k : Bool) :
    (∀ img : Px → ℤ, maskImagesPair img = (fun _ => (0 : ℤ), img)) ∧
    (∀ m m' : MeasurementSofastFixed Px MRest, m.image = m'.image →
      calculate_mask cr kl ot k m.image = calculate_mask cr kl ot k m'.image) := by
  constructor
  · intro img
    have h : (fun p => img p * 0) = (fun _ : Px => (0 : ℤ)) :=
      funext fun p => mul_zero _
    rw [maskImagesPair, h]
  · intro m m' h
    rw [h]

/-- C10 witness: with a concrete mask oracle, a concrete image, and two
measurements differing only in their non-image payload, the dark
channel is zero and the masks agree. -/
theorem claim_C10_witness :
    maskImagesPair (fun _ : Unit => (5 : ℤ)) = (fun _ => (0 : ℤ), fun _ => (5 : ℤ)) ∧
    calculate_mask crW klW none false
        (MeasurementSofastFixed.mk (fun _ : Unit => (5 : ℤ)) true).image =
      calculate_mask crW klW none false
        (MeasurementSofastFixed.mk (fun _ : Unit => (5 : ℤ)) false).image := by
  exact ⟨(@claim_C10_mask_dark_channel_is_zero Unit (ℤ × ℤ) Bool crW klW none false).1 _,
    (@claim_C10_mask_dark_channel_is_zero Unit (ℤ × ℤ) Bool crW klW none false).2
      (MeasurementSofastFixed.mk (fun _ => (5 : ℤ)) true)
      (MeasurementSofastFixed.mk (fun _ => (5 : ℤ)) false) rfl⟩

/-- C7: a `process_single_facet_optic` call whose `pt_known` has length
other than 1 raises `ValueError` with the instance state unmodified
(the check is the first statement of the method); with a length-1
`pt_known` the check passes and processing proceeds (the state is
assigned `optic_type = 'single'`, whatever the later steps do). -/
theorem claim_C7_known_point_count_check {T : STypes} (O : Oracles T)
    (fd : T.F) (sf : T.S) (pts : List T.P) (xy : ℤ × ℤ)
    (st : SofastState T) :
    (pts.length ≠ 1 →
      processSingle O fd sf pts xy st = (st, some PyErr.valueError)) ∧
    (pts.length = 1 →
      ((processSingle O fd sf pts xy st).1).optic_type =
        some OpticType.single) := by
  constructor
  · intro h
    unfold processSingle
    rw [if_pos h]
  · intro h
    exact processSingle_opticType O fd sf pts xy st h

/-- C7 witness: a two-point `pt_known` raises `ValueError` leaving the
fresh state unchanged; a one-point `pt_known` passes the check. -/
theorem claim_C7_witness :
    processSingle OU () () [(), ()] (0, 0) stU = (stU, some PyErr.valueError) ∧
    ((processSingle OU () () [()] (0, 0) stU).1).optic_type =
      some OpticType.single := by
  exact ⟨(claim_C7_known_point_count_check OU () () [(), ()] (0, 0) stU).1
      (by decide),
    (claim_C7_known_point_count_check OU () () [()] (0, 0) stU).2 rfl⟩

/-- C2 amended: validation errors (the `pt_known` length check, the
multi-facet length guard) are raised before any assignment and leave
the instance unchanged; but a geometric degeneracy error raised during
geometry processing aborts the call with the attributes assigned
earlier in the call (`optic_type`, `num_facets`, `data_facet_def`,
`data_surfaces`, `blob_index`, and for multi the copied
`data_ensemble_def` and the auto-corrected `keep_largest_area` flag)
retaining the aborted call's new values; only the geometry and slope
result attributes are left unchanged from before the call. -/
theorem claim_C2_amended {T : STypes} (O : Oracles T) :
    (∀ (fd : T.F) (sf : T.S) (pts : List T.P) (xy : ℤ × ℤ)
       (st : SofastState T), pts.length ≠ 1 →
      processSingle O fd sf pts xy st = (st, some PyErr.valueError)) ∧
    (∀ (fd : T.F) (sf : T.S) (pts : List T.P) (xy : ℤ × ℤ)
       (st : SofastState T) (m : MeasurementSofastFixed T.Px T.MRest)
       (b : T.B) (e : PyErr), pts.length = 1 →
      st.measurement = some m →
      O.findBlobs m.image pts [xy] = .ok b →
      O.procSingleGeom (O.copyFacet fd)
        (calculate_mask O.calcMaskRaw O.keepLargestMaskArea
          (some OpticType.single) st.keep_largest_area m.image).mask m b sf =
        .error e →
      processSingle O fd sf pts xy st =
        ({ st with
           optic_type := some OpticType.single,
           num_facets := some 1,
           data_facet_def := some [O.copyFacet fd],
           data_surfaces := some [sf],
           blob_index := some b }, some e)) ∧
    (∀ (fds : List T.F) (sfs : List T.S) (ed : T.E) (pts : List T.P)
       (xys : List (ℤ × ℤ)) (st : SofastState T),
      multiLengthMismatchRaises fds.length sfs.length pts.length xys.length =
        true →
      processMulti O fds sfs ed pts xys st = (st, some PyErr.valueError)) ∧
    (∀ (fds : List T.F) (sfs : List T.S) (ed : T.E) (pts : List T.P)
       (xys : List (ℤ × ℤ)) (st : SofastState T)
       (m : MeasurementSofastFixed T.Px T.MRest) (b : T.B) (e : PyErr),
      multiLengthMismatchRaises fds.length sfs.length pts.length xys.length =
        false →
      st.measurement = some m →
      O.findBlobs m.image pts xys = .ok b →
      O.procMultiGeom (fds.map O.copyFacet) (O.copyEnsemble ed)
        (calculate_mask O.calcMaskRaw O.keepLargestMaskArea
          (some OpticType.multi) st.keep_largest_area m.image).mask m b sfs =
        .error e →
      processMulti O fds sfs ed pts xys st =
        ({ st with
           optic_type := some OpticType.multi,
           num_facets := some fds.length,
           data_facet_def := some (fds.map O.copyFacet),
           data_ensemble_def := some (O.copyEnsemble ed),
           data_surfaces := some sfs,
           blob_index := some b,
           keep_largest_area := false }, some e)) := by
  refine ⟨?_, ?_, ?_, ?_⟩
  · intro fd sf pts xy st h
    unfold processSingle
    rw [if_pos h]
  · intro fd sf pts xy st m b e hlen hm hblob hgeom
    unfold processSingle
    rw [if_neg (by simp [hlen])]
    dsimp only
    rw [hm]
    simp only [hblob, hgeom, calculate_mask_keep_single]
  · intro fds sfs ed pts xys st h
    unfold processMulti
    rw [if_pos h]
  · intro fds sfs ed pts xys st m b e hlen hm hblob hgeom
    unfold processMulti
    rw [if_neg (by simp [hlen])]
    dsimp only
    rw [hm]
    simp only [hblob, hgeom, calculate_mask_keep_multi]

/-- C2 amended witness: the concrete failing-geometry single-facet run
ends with exactly the early assignments retained and the degeneracy
error propagated. -/
theorem claim_C2_amended_witness :
    processSingle OgeomFailU () () [()] (0, 0) stU =
      ({ stU with
         optic_type := some OpticType.single,
         num_facets := some 1,
         data_facet_def := some [()],
         data_surfaces := some [()],
         blob_index := some () }, some PyErr.valueError) :=
  (claim_C2_amended OgeomFailU).2.1 () () [()] (0, 0) stU mU ()
    PyErr.valueError rfl rfl rfl rfl

/-- C5 counterexample: with one facet and solved slopes, the reference
index `-1` is an integer outside the claimed valid range `0..0`, yet
the call raises nothing — the code only checks
`reference >= num_facets`, and numpy then wraps the negative column
index.  So the claim's "fails with ValueError for every out-of-range
integer" is false. -/
theorem claim_C5_counterexample :
    calculateFacetPointing alignToW nfW ensDefW (some [defaultSSD]) 1
      (RefArg.intRef (-1)) =
      .ok (alignedOutput alignToW nfW ensDefW [defaultSSD] 1
        (pointingOf ensDefW [defaultSSD] 0)) ∧
    ¬ (0 : ℤ) ≤ (-1 : ℤ) := by
  constructor
  · rfl
  · decide

/-- C5 amended: the validation of `_calculate_facet_pointing` raises
`ValueError` exactly when the reference is an integer `≥ num_facets`
or is neither `'average'` nor an integer.  A negative integer
reference in `[-num_facets, 0)` is accepted (numpy negative-index
wrap-around) and the call returns a result; an integer below
`-num_facets` raises `IndexError` (from the column access, not the
validation).  When slopes have not been solved the attribute lookup
itself raises `AttributeError` (the attribute is never initialized to
`None`, so the coded `ValueError` branch is unreachable); `'average'`
always succeeds. -/
theorem claim_C5_amended (alignTo : Vec3 → Vec3 → Mat3) (nf : Vec3 → ℚ)
    (ensDef : DefinitionEnsemble) (data : List SlopeSolverData) (N : ℕ)
    (r : RefArg) :
    (calculateFacetPointing alignTo nf ensDef none N r =
      .error PyErr.attributeError) ∧
    (calculateFacetPointing alignTo nf ensDef (some data) N RefArg.other =
      .error PyErr.valueError) ∧
    (∀ i : ℤ, (N : ℤ) ≤ i →
      calculateFacetPointing alignTo nf ensDef (some data) N (RefArg.intRef i) =
        .error PyErr.valueError) ∧
    (∀ i : ℤ, i < -(N : ℤ) →
      calculateFacetPointing alignTo nf ensDef (some data) N (RefArg.intRef i) =
        .error PyErr.indexError) ∧
    (∀ i : ℤ, -(N : ℤ) ≤ i → i < (N : ℤ) →
      ∃ out, calculateFacetPointing alignTo nf ensDef (some data) N
        (RefArg.intRef i) = .ok out) ∧
    (calculateFacetPointing alignTo nf ensDef (some data) N RefArg.average =
      .ok (alignedOutput alignTo nf ensDef data N
        (meanVec N (pointingList ensDef data N)))) := by
  refine ⟨rfl, rfl, ?_, ?_, ?_, rfl⟩
  · intro i h
    unfold calculateFacetPointing
    dsimp only
    rw [if_pos h]
  · intro i h
    have hNle : ¬ (N : ℤ) ≤ i := by omega
    unfold calculateFacetPointing
    dsimp only
    rw [if_neg hNle]
    unfold numpyColumn
    dsimp only
    rw [pointingList_length, if_pos (show i < 0 by omega),
      if_neg (show ¬ (0 ≤ (N : ℤ) + i ∧ (N : ℤ) + i < (N : ℤ)) by omega)]
  · intro i h1 h2
    have hNle : ¬ (N : ℤ) ≤ i := by omega
    unfold calculateFacetPointing
    dsimp only
    rw [if_neg hNle]
    unfold numpyColumn
    dsimp only
    rw [pointingList_length]
    by_cases hneg : i < 0
    · rw [if_pos hneg, if_pos (by omega)]
      exact ⟨_, rfl⟩
    · rw [if_neg hneg, if_pos (by omega)]
      exact ⟨_, rfl⟩

/-- C5 amended witness: index 5 with one facet raises `ValueError`. -/
theorem claim_C5_amended_witness :
    calculateFacetPointing alignToW nfW ensDefW (some [defaultSSD]) 1
      (RefArg.intRef 5) = .error PyErr.valueError :=
  (claim_C5_amended alignToW nfW ensDefW [defaultSSD] 1
    RefArg.other).2.2.1 5 (by decide)

/-- C3: for a successful alignment, (a) with an integer reference `i`
(in range), the reference pointing handed to `align_to` is facet `i`'s
pointing vector, and under `align_to`'s contract (the returned rotation
maps that vector to the boresight `(0,0,1)`) facet `i`'s post-alignment
pointing in ensemble coordinates is exactly `(0,0,1)`; (b) with
reference `'average'` the rotation is computed from the columnwise mean
of all `N` pointing vectors; in both cases the same single correction
rotation is left-composed onto every one of the `N` facet-to-ensemble
transforms. -/
theorem claim_C3_facet_pointing_alignment (alignTo : Vec3 → Vec3 → Mat3)
    (nf : Vec3 → ℚ) (ensDef : DefinitionEnsemble)
    (data : List SlopeSolverData) (N : ℕ) :
    (∀ i : ℕ, i < N →
      (alignTo (pointingOf ensDef data i) e3).mulVec (pointingOf ensDef data i) =
        e3 →
      calculateFacetPointing alignTo nf ensDef (some data) N
        (RefArg.intRef i) =
        .ok (alignedOutput alignTo nf ensDef data N (pointingOf ensDef data i)) ∧
      ((alignedOutput alignTo nf ensDef data N
          (pointingOf ensDef data i)).getD i
          defaultCFE).v_facet_pointing_ensemble = e3 ∧
      (∀ j : ℕ, j < N →
        ((alignedOutput alignTo nf ensDef data N
            (pointingOf ensDef data i)).getD j
            defaultCFE).trans_facet_ensemble =
          TransformXYZ.from_R (alignTo (pointingOf ensDef data i) e3) *
            preTransOf ensDef data j)) ∧
    (calculateFacetPointing alignTo nf ensDef (some data) N RefArg.average =
      .ok (alignedOutput alignTo nf ensDef data N
        (meanVec N (pointingList ensDef data N))) ∧
     (∀ j : ℕ, j < N →
       ((alignedOutput alignTo nf ensDef data N
           (meanVec N (pointingList ensDef data N))).getD j
           defaultCFE).trans_facet_ensemble =
         TransformXYZ.from_R
             (alignTo (meanVec N (pointingList ensDef data N)) e3) *
           preTransOf ensDef data j)) := by
  constructor
  · intro i hi hAlign
    refine ⟨calcFP_intRef_nat alignTo nf ensDef data N i hi, ?_, ?_⟩
    · unfold alignedOutput
      rw [getD_range_map _ _ _ _ hi]
      unfold facetOut finalTransOf
      dsimp only
      rw [TransformXYZ.comp_R, Mat3.mul_mulVec]
      exact hAlign
    · intro j hj
      unfold alignedOutput
      rw [getD_range_map _ _ _ _ hj]
      rfl
  · constructor
    · rfl
    · intro j hj
      unfold alignedOutput
      rw [getD_range_map _ _ _ _ hj]
      rfl

/-- C3 witness: one identity facet, reference index 0; the contract
hypothesis holds concretely and the aligned pointing is `(0,0,1)`. -/
theorem claim_C3_witness :
    calculateFacetPointing alignToW nfW ensDefW (some [defaultSSD]) 1
      (RefArg.intRef ((0 : ℕ) : ℤ)) =
      .ok (alignedOutput alignToW nfW ensDefW [defaultSSD] 1
        (pointingOf ensDefW [defaultSSD] 0)) ∧
    ((alignedOutput alignToW nfW ensDefW [defaultSSD] 1
        (pointingOf ensDefW [defaultSSD] 0)).getD 0
        defaultCFE).v_facet_pointing_ensemble = e3 :=
  ⟨((claim_C3_facet_pointing_alignment alignToW nfW ensDefW [defaultSSD] 1).1 0
      (by norm_num)
      (by rw [show alignToW (pointingOf ensDefW [defaultSSD] 0) e3 = Mat3.one
            from rfl, Mat3.one_mulVec, pointingOf_W])).1,
   ((claim_C3_facet_pointing_alignment alignToW nfW ensDefW [defaultSSD] 1).1 0
      (by norm_num)
      (by rw [show alignToW (pointingOf ensDefW [defaultSSD] 0) e3 = Mat3.one
            from rfl, Mat3.one_mulVec, pointingOf_W])).2.1⟩

/-- C4: for every facet of a successful alignment, the global slopes
are exactly the map over the facet's local slope pairs of: rotate the
slope-as-normal direction `(-sx, -sy, 1)` by the facet's final
facet-to-ensemble rotation and reconvert to slope ratios
`-(R n).xy / (R n).z`; the unit normalization (a positive scalar)
cancels, so rotating the normalized or raw normal gives the same
slopes — and in particular the slopes are not obtained by rotating the
raw slope ratios themselves. -/
theorem claim_C4_slopes_via_normals (alignTo : Vec3 → Vec3 → Mat3)
    (nf : Vec3 → ℚ) (ensDef : DefinitionEnsemble)
    (data : List SlopeSolverData) (N : ℕ) (r : RefArg)
    (out : List CalculationFacetEnsemble)
    (hnf : ∀ v : Vec3, 0 < nf v)
    (hok : calculateFacetPointing alignTo nf ensDef (some data) N r = .ok out) :
    ∀ j : ℕ, j < N →
      (out.getD j defaultCFE).slopes_ensemble_xy =
        (data.getD j defaultSSD).slopes_facet_xy.map
          (slopeViaNormal ((out.getD j defaultCFE).trans_facet_ensemble).R) := by
  obtain ⟨vref, rfl⟩ := calcFP_ok_shape alignTo nf ensDef data N r out hok
  intro j hj
  unfold alignedOutput
  rw [getD_range_map _ _ _ _ hj]
  show ((data.getD j defaultSSD).slopes_facet_xy.map
      (slopeGlobal nf (finalTransOf alignTo ensDef data vref j).R)) = _
  refine List.map_congr_left ?_
  intro s _
  exact slopeGlobal_eq_viaNormal nf _ s (ne_of_gt (hnf _))

/-- C4 witness: a concrete one-facet run with normalization factor 2;
the output slopes equal the raw-normal formula. -/
theorem claim_C4_witness :
    ((alignedOutput alignToW nfW2 ensDefW [ssdW] 1
        (meanVec 1 (pointingList ensDefW [ssdW] 1))).getD 0
        defaultCFE).slopes_ensemble_xy =
      ([ssdW].getD 0 defaultSSD).slopes_facet_xy.map
        (slopeViaNormal (((alignedOutput alignToW nfW2 ensDefW [ssdW] 1
          (meanVec 1 (pointingList ensDefW [ssdW] 1))).getD 0
          defaultCFE).trans_facet_ensemble).R) :=
  claim_C4_slopes_via_normals alignToW nfW2 ensDefW [ssdW] 1 RefArg.average _
    (fun _ => (by norm_num : (0 : ℚ) < 2)) rfl 0 (by decide)

/-- C8: after two successful `process_single_facet_optic` runs on the
same instance (each preceded by loading its measurement), every
per-facet result exposed after the second run — `facetResults`
(`data_facet_def`, `data_surfaces`, `blob_index`, geometry records,
`slope_solver`, `data_calculation_facet`) and the `get_optic` output —
equals what a single run with the second run's inputs from the original
state produces: nothing from the first run leaks into the second run's
per-facet results (the collaborator oracles are deterministic
functions, and the single-facet path never mutates the configuration
flags the mask step reads). -/
theorem claim_C8_second_run_replaces_results {T : STypes} (O : Oracles T)
    (fd1 : T.F) (sf1 : T.S) (p1 : List T.P) (xy1 : ℤ × ℤ)
    (m1 : MeasurementSofastFixed T.Px T.MRest) (fd2 : T.F) (sf2 : T.S)
    (p2 : List T.P) (xy2 : ℤ × ℤ) (m2 : MeasurementSofastFixed T.Px T.MRest)
    (s0 t1 t2 t2' : SofastState T)
    (h1 : processSingle O fd1 sf1 p1 xy1 (load_measurement_data m1 s0) =
      (t1, none))
    (h2 : processSingle O fd2 sf2 p2 xy2 (load_measurement_data m2 t1) =
      (t2, none))
    (h3 : processSingle O fd2 sf2 p2 xy2 (load_measurement_data m2 s0) =
      (t2', none)) :
    facetResults t2 = facetResults t2' ∧ getOptic O t2 = getOptic O t2' := by
  have hk1 : t1.keep_largest_area = s0.keep_largest_area := by
    have hkk := processSingle_keep O fd1 sf1 p1 xy1 (load_measurement_data m1 s0)
    rw [h1] at hkk
    exact hkk
  obtain ⟨b, g, kw, sv, d, hb, hg, hs, f1, f2, f3, f4, f5, f6, f7, f8⟩ :=
    processSingle_success_fields O fd2 sf2 p2 xy2 _ t2 m2 rfl h2
  obtain ⟨b', g', kw', sv', d', hb', hg', hs', f1', f2', f3', f4', f5', f6',
    f7', f8'⟩ :=
    processSingle_success_fields O fd2 sf2 p2 xy2 _ t2' m2 rfl h3
  have hbb : b = b' := by
    rw [hb] at hb'
    exact Except.ok.inj hb'
  have hkeq : (load_measurement_data m2 t1).keep_largest_area =
      (load_measurement_data m2 s0).keep_largest_area := hk1
  rw [hkeq, hbb] at hg
  have hgk : (g, kw) = (g', kw') := by
    rw [hg] at hg'
    exact Except.ok.inj hg'
  have hgg : g = g' := congrArg Prod.fst hgk
  have hkw : kw = kw' := congrArg Prod.snd hgk
  have hsd : (sv, d) = (sv', d') := by
    rw [hkw] at hs
    rw [hs] at hs'
    exact Except.ok.inj hs'
  have hsv : sv = sv' := congrArg Prod.fst hsd
  have hd : d = d' := congrArg Prod.snd hsd
  constructor
  · unfold facetResults
    rw [f1, f2, f3, f4, f5, f6, f1', f2', f3', f4', f5', f6', hbb, hgg, hsv, hd]
  · rw [getOptic_of_single_fields O t2 d (O.copyFacet fd2) f8 f6 f1 f7,
      getOptic_of_single_fields O t2' d' (O.copyFacet fd2) f8' f6' f1' f7', hd]

/-- C8 witness: two concrete successful runs with the all-success
oracles; the second run's results and `get_optic` output match those of
a direct run from the fresh state. -/
theorem claim_C8_witness :
    facetResults (processSingle OU () () [()] (0, 0)
        (load_measurement_data mU
          ((processSingle OU () () [()] (0, 0)
            (load_measurement_data mU stU)).1))).1 =
      facetResults (processSingle OU () () [()] (0, 0)
        (load_measurement_data mU stU)).1 ∧
    getOptic OU (processSingle OU () () [()] (0, 0)
        (load_measurement_data mU
          ((processSingle OU () () [()] (0, 0)
            (load_measurement_data mU stU)).1))).1 =
      getOptic OU (processSingle OU () () [()] (0, 0)
        (load_measurement_data mU stU)).1 :=
  claim_C8_second_run_replaces_results OU () () [()] (0, 0) mU () () [()]
    (0, 0) mU stU _ _ _ rfl rfl rfl

/-- C9: in the heap model of both `process_*` calls, the caller's facet
and ensemble definition objects are never mutated (their cells read the
same after the call, given valid addresses): the orchestrator stores
freshly allocated copies (`.copy()`) holding equal values at addresses
the caller does not own, while the surfaces are stored by reference
(the stored addresses are the caller's own); processing, including the
slope solver's in-place surface refinement, touches only the surface
store. -/
theorem claim_C9_definitions_copied_surfaces_referenced {F E S : Type}
    (refine : S → S) (fdAddrs : List ℕ) (ensAddr : ℕ) (surfAddrs : List ℕ)
    (fdAddr surfAddr : ℕ) (h : HeapEnv F E S)
    (hf : ∀ a ∈ fdAddrs, a < h.facets.next) (he : ensAddr < h.ens.next)
    (hf1 : fdAddr < h.facets.next) :
    ((∀ a ∈ fdAddrs,
        (processMultiHeap refine fdAddrs ensAddr surfAddrs h).2.facets.read a =
          h.facets.read a) ∧
      (processMultiHeap refine fdAddrs ensAddr surfAddrs h).2.ens.read ensAddr =
        h.ens.read ensAddr ∧
      (processMultiHeap refine fdAddrs ensAddr surfAddrs h).1.data_surfaces =
        surfAddrs ∧
      ((processMultiHeap refine fdAddrs ensAddr surfAddrs h).1.data_facet_def).map
          ((processMultiHeap refine fdAddrs ensAddr surfAddrs h).2.facets.read) =
        fdAddrs.map h.facets.read ∧
      (∀ c ∈ (processMultiHeap refine fdAddrs ensAddr surfAddrs h).1.data_facet_def,
        h.facets.next ≤ c) ∧
      (∀ c, (processMultiHeap refine fdAddrs ensAddr surfAddrs h).1.data_ensemble_def =
          some c → h.ens.next ≤ c)) ∧
    ((processSingleHeap refine fdAddr surfAddr h).2.facets.read fdAddr =
        h.facets.read fdAddr ∧
      (processSingleHeap refine fdAddr surfAddr h).1.data_surfaces = [surfAddr] ∧
      ((processSingleHeap refine fdAddr surfAddr h).1.data_facet_def).map
          ((processSingleHeap refine fdAddr surfAddr h).2.facets.read) =
        [h.facets.read fdAddr] ∧
      (∀ c ∈ (processSingleHeap refine fdAddr surfAddr h).1.data_facet_def,
        h.facets.next ≤ c)) := by
  constructor
  · refine ⟨?_, ?_, rfl, ?_, ?_, ?_⟩
    · intro a ha
      exact Store.allocCopies_read_lt fdAddrs h.facets a (hf a ha)
    · exact Store.alloc_read_lt h.ens (h.ens.read ensAddr) ensAddr he
    · exact Store.allocCopies_values fdAddrs h.facets hf
    · intro c hc
      exact Store.allocCopies_fresh fdAddrs h.facets c hc
    · intro c hc
      cases hc
      exact le_refl _
  · refine ⟨?_, rfl, ?_, ?_⟩
    · exact Store.alloc_read_lt h.facets (h.facets.read fdAddr) fdAddr hf1
    · show [((h.facets.alloc (h.facets.read fdAddr)).2).read h.facets.next] = _
      simp [Store.alloc, Store.read]
    · intro c hc
      rcases List.mem_singleton.mp hc with rfl
      exact le_refl _

/-- C9 witness: on concrete heaps, the caller's facet and ensemble
cells are unchanged by both calls and the surfaces are stored by
reference. -/
theorem claim_C9_witness :
    (processMultiHeap Nat.succ [0, 1] 0 [0] hpW).2.facets.read 0 =
      hpW.facets.read 0 ∧
    (processMultiHeap Nat.succ [0, 1] 0 [0] hpW).2.ens.read 0 =
      hpW.ens.read 0 ∧
    (processMultiHeap Nat.succ [0, 1] 0 [0] hpW).1.data_surfaces = [0] ∧
    (processSingleHeap Nat.succ 1 0 hpW).2.facets.read 1 =
      hpW.facets.read 1 :=
  ⟨(claim_C9_definitions_copied_surfaces_referenced Nat.succ [0, 1] 0 [0] 1 0
      hpW (by decide) (by decide) (by decide)).1.1 0 (by decide),
   (claim_C9_definitions_copied_surfaces_referenced Nat.succ [0, 1] 0 [0] 1 0
      hpW (by decide) (by decide) (by decide)).1.2.1,
   (claim_C9_definitions_copied_surfaces_referenced Nat.succ [0, 1] 0 [0] 1 0
      hpW (by decide) (by decide) (by decide)).1.2.2.1,
   (claim_C9_definitions_copied_surfaces_referenced Nat.succ [0, 1] 0 [0] 1 0
      hpW (by decide) (by decide) (by decide)).2.1⟩

end SofastFixed
